import Mathlib

/-!
Verification development for the scripted flight-command interpreter and toy
state model of the drone simulator (src/src/pages/Simulator.tsx).

Modelling conventions:
- JS numbers are modelled exactly: plain arithmetic on build specs uses the
  rationals; drone motion state is parametric in a linear ordered field R,
  with Math.PI, Math.sin, Math.cos, Math.sqrt and number-to-string
  formatting passed in as an abstract bundle (MathOps), since nothing in
  the claims depends on their numeric values beyond order facts about pi
  and sqrt that are proved at the instantiation R = Real.
- React state hooks become explicit record fields of SimState; each setter
  call becomes a functional update.  The log is the list of messages in
  order; the wall-clock timestamp the source prepends to every line is
  dropped (no claim mentions it).
- The async runCode closure captures the render-time values of isRunning,
  dronePos, batteryVoltage and activeMission; the model makes that capture
  explicit in the Captured record, taken as a snapshot of the state at
  invocation.  setDronePos uses functional updates, so position writes see
  the live threaded state; the loop guard, the mission check and
  print_telemetry read the captured snapshot, exactly as the source does.
- setTimeout-deferred writes inside a single command (the throttle decay
  scheduled by the manual controller, and the transient throttle levels
  held during a settle wait) are folded to the value in force once the
  command completes; the accumulated wait time is tracked in the slept
  field so that suspension behaviour stays observable.
-/

namespace DroneSim

/-! ## Build registry (Simulator.tsx, COMPONENT_SPECS and the derived
summary: lines 36-45 and 156-168) -/

/-- The eight installable component flags of the build registry
(BuildState in the source). -/
structure BuildState where
  frame : Bool
  motors : Bool
  esc : Bool
  fc : Bool
  battery : Bool
  props : Bool
  camera : Bool
  wings : Bool
deriving DecidableEq

/-- The two drone variants the simulator offers. -/
inductive DroneType where
  | quadcopter
  | fixedWing
deriving DecidableEq

/-- Sum of the weights of the installed parts, from COMPONENT_SPECS
(frame 150, motors 120, esc 20, fc 10, camera 15, battery 250, props 20,
wings 200 grams). -/
def totalWeight (bs : BuildState) : ℚ :=
  (if bs.frame then 150 else 0) + (if bs.motors then 120 else 0) +
  (if bs.esc then 20 else 0) + (if bs.fc then 10 else 0) +
  (if bs.camera then 15 else 0) + (if bs.battery then 250 else 0) +
  (if bs.props then 20 else 0) + (if bs.wings then 200 else 0)

/-- maxThrust: the motor thrust spec when motors, props and battery are all
installed (3200 for the quadcopter, 2000 for the fixed wing), else 0. -/
def maxThrust (dt : DroneType) (bs : BuildState) : ℚ :=
  if bs.motors && bs.props && bs.battery then
    match dt with
    | DroneType.quadcopter => 3200
    | DroneType.fixedWing => 2000
  else 0

/-- JS Number.prototype.toFixed(1) followed by parseFloat: round to one
decimal place, ties towards the larger integer. -/
def toFixed1 (x : ℚ) : ℚ := ((⌊x * 10 + 1 / 2⌋ : ℤ) : ℚ) / 10

/-- The displayed thrust-to-weight ratio: the source formats
maxThrust / totalWeight with toFixed(1) when maxThrust is positive and
shows the string 0.0 otherwise, then parses it back for the comparison. -/
def twrDisplayed (dt : DroneType) (bs : BuildState) : ℚ :=
  if maxThrust dt bs > 0 then toFixed1 (maxThrust dt bs / totalWeight bs) else 0

/-- canFly: the parsed displayed ratio strictly exceeds 1.2. -/
def canFly (dt : DroneType) (bs : BuildState) : Bool :=
  decide (twrDisplayed dt bs > 1.2)

/-- isFullyBuilt: all mandatory parts installed; wings are mandatory only
for the fixed-wing variant. -/
def isFullyBuilt (dt : DroneType) (bs : BuildState) : Bool :=
  match dt with
  | DroneType.quadcopter =>
      bs.frame && bs.motors && bs.esc && bs.fc && bs.battery && bs.props
  | DroneType.fixedWing =>
      bs.frame && bs.motors && bs.esc && bs.fc && bs.battery && bs.props && bs.wings

/-- Modelled from the spec: the exact ratio maxThrust / totalWeight, 0 when
totalWeight is 0 (section 3, Derived Build Summary).  Stated separately from
the code-side twrDisplayed so that C6 can compare the two. -/
def twrSpecFormula (dt : DroneType) (bs : BuildState) : ℚ :=
  if totalWeight bs = 0 then 0 else maxThrust dt bs / totalWeight bs

/-- The registry with only the frame installed: every part defaults to not
installed except the frame. -/
def onlyFrame : BuildState :=
  { frame := true, motors := false, esc := false, fc := false,
    battery := false, props := false, camera := false, wings := false }

/-- A fully assembled quadcopter registry (camera and wings left off). -/
def fullQuad : BuildState :=
  { frame := true, motors := true, esc := true, fc := true,
    battery := true, props := true, camera := false, wings := false }

/-! ## String primitives

The interpreter works on JS strings; the model works on their character
lists so that everything reduces.  Case conversion is modelled over the
ASCII range, which covers every string the simulator produces. -/

/-- JS String.prototype.startsWith. -/
def strStarts (s p : String) : Bool := p.toList.isPrefixOf s.toList

/-- True when p occurs as a contiguous substring of the character list. -/
def isInfixList (p : List Char) : List Char → Bool
  | [] => p.isEmpty
  | c :: cs => p.isPrefixOf (c :: cs) || isInfixList p cs

/-- JS String.prototype.includes, used to classify log lines. -/
def containsStr (s p : String) : Bool := isInfixList p.toList s.toList

/-- ASCII lower-casing of one character (JS toLowerCase on the scripts in
scope, which are ASCII). -/
def lowerChar (c : Char) : Char :=
  if 'A' ≤ c ∧ c ≤ 'Z' then Char.ofNat (c.toNat + 32) else c

/-- ASCII upper-casing of one character (JS toUpperCase). -/
def upperChar (c : Char) : Char :=
  if 'a' ≤ c ∧ c ≤ 'z' then Char.ofNat (c.toNat - 32) else c

/-- JS String.prototype.toUpperCase over ASCII. -/
def strUpper (s : String) : String := String.mk (s.toList.map upperChar)

/-- JS String.prototype.trim: strip whitespace from both ends. -/
def trimChars (cs : List Char) : List Char :=
  ((cs.dropWhile Char.isWhitespace).reverse.dropWhile Char.isWhitespace).reverse

/-- JS String.prototype.split with separator newline; split never returns
an empty list and keeps empty segments. -/
def splitNl : List Char → List (List Char)
  | [] => [[]]
  | c :: cs =>
    if c = '\n' then [] :: splitNl cs else
      match splitNl cs with
      | [] => [[c]]
      | l :: ls => (c :: l) :: ls

/-- One script line after the map step: trimmed then lower-cased. -/
def normLine (cs : List Char) : String := String.mk ((trimChars cs).map lowerChar)

/-- The filter step keeps truthy (non-empty) lines that do not start with
the comment marker. -/
def keepLine (s : String) : Bool := !s.toList.isEmpty && !(strStarts s "#")

/-- The parse step of runCode: split on newlines, trim and lower-case each
line, drop empty and comment lines. -/
def parseLines (code : String) : List String :=
  ((splitNl code.toList).map normLine).filter keepLine

/-- First match of the regex digit-run pattern: the leftmost maximal run
of decimal digits anywhere in the line, if any. -/
def firstDigitRun : List Char → Option (List Char)
  | [] => none
  | c :: cs =>
    if c.isDigit then some (c :: cs.takeWhile Char.isDigit) else firstDigitRun cs

/-- Numeric value of a run of decimal digits. -/
def digitsVal (ds : List Char) : ℕ := ds.foldl (fun n c => 10 * n + (c.toNat - 48)) 0

/-- The source's argument extraction, parseFloat of the first digit-run
match with a default literal when there is no match.  A digit run parses
to a natural number. -/
def numArg (l : String) (dflt : ℕ) : ℕ :=
  match firstDigitRun l.toList with
  | some ds => digitsVal ds
  | none => dflt

/-- Character class of the waypoint regex argument groups: digits, minus
sign or dot. -/
def isNumChar (c : Char) : Bool := c.isDigit || c = '-' || c = '.'

/-- Match the argument part of the waypoint regex at the current position:
a non-empty numeric-character group, a comma, optional whitespace, a second
non-empty group, then a closing parenthesis.  Greedy matching is exact here
because comma and parenthesis are outside the character class. -/
def matchWaypointArgs (cs : List Char) : Option (List Char × List Char) :=
  let g1 := cs.takeWhile isNumChar
  let r1 := cs.dropWhile isNumChar
  if g1.isEmpty then none
  else
    match r1 with
    | ',' :: r2 =>
      let r3 := r2.dropWhile Char.isWhitespace
      let g2 := r3.takeWhile isNumChar
      let r4 := r3.dropWhile isNumChar
      if g2.isEmpty then none
      else
        match r4 with
        | ')' :: _ => some (g1, g2)
        | _ => none
    | _ => none

/-- Strip an expected literal from the front of a character list. -/
def dropLit : List Char → List Char → Option (List Char)
  | [], cs => some cs
  | _ :: _, [] => none
  | p :: ps, c :: cs => if c = p then dropLit ps cs else none

/-- Unanchored search of the waypoint regex over the whole line, returning
the two captured groups of the first match. -/
def searchWaypoint : List Char → Option (List Char × List Char)
  | [] => none
  | c :: cs =>
    match dropLit "waypoint(".toList (c :: cs) with
    | some rest =>
      match matchWaypointArgs rest with
      | some g => some g
      | none => searchWaypoint cs
    | none => searchWaypoint cs

/-- JS parseFloat restricted to the waypoint group character class:
optional sign, integer digits, optional dot and fraction digits; none when
no digit is consumed (NaN in JS). -/
def jsParseFloat (cs : List Char) : Option ℚ :=
  let sgn : Bool × List Char :=
    match cs with
    | '-' :: r => (true, r)
    | '+' :: r => (false, r)
    | _ => (false, cs)
  let ip := sgn.2.takeWhile Char.isDigit
  let r1 := sgn.2.dropWhile Char.isDigit
  let fp :=
    match r1 with
    | '.' :: r2 => r2.takeWhile Char.isDigit
    | _ => []
  if ip.isEmpty && fp.isEmpty then none
  else
    let mag : ℚ := (digitsVal ip : ℚ) + (digitsVal fp : ℚ) / (10 : ℚ) ^ fp.length
    some (if sgn.1 then -mag else mag)

/-! ## Drone state and the math context -/

/-- The opaque pieces of JS Math the simulator calls: Math.PI, Math.sin,
Math.cos, Math.sqrt and toFixed-style number formatting for telemetry
text.  The model is parametric in them; order facts about pi and sqrt are
supplied at the instantiation with the real numbers. -/
structure MathOps (R : Type) where
  pi : R
  sin : R → R
  cos : R → R
  sqrt : R → R
  fmt : R → String

/-- The mission selector values of the activeMission state: the free and
hoop options of the select control. -/
inductive Mission where
  | free
  | hoop
deriving DecidableEq

/-- The mutable simulator session state: dronePos, droneRot, isHovering
(the armed display), isRunning, crashed, throttle, activeMission and the
log list.  The slept field is a model artifact accumulating the
setTimeout suspension milliseconds of the commands executed so far, so
that settle waits stay observable in the final state. -/
structure SimState (R : Type) where
  posX : R
  posY : R
  posZ : R
  rotX : R
  rotY : R
  rotZ : R
  isHovering : Bool
  running : Bool
  crashed : Bool
  throttle : ℚ
  slept : ℚ
  mission : Mission
  logs : List String
deriving DecidableEq

/-- The values the async runCode closure captured at render time and keeps
reading for the whole run: the isRunning flag tested by the loop guard,
dronePos and batteryVoltage read by the mission check and print_telemetry,
and activeMission read by the mission check. -/
structure Captured (R : Type) where
  running0 : Bool
  posX0 : R
  posY0 : R
  posZ0 : R
  battV0 : R
  mission0 : Mission
deriving DecidableEq

/-- The loop-local currentRot array: a copy of droneRot taken when the run
starts, mutated only by the yaw command. -/
structure LoopState (R : Type) where
  store : SimState R
  curX : R
  curY : R
  curZ : R
deriving DecidableEq

/-- The initial session state (the drone on the ground at the origin). -/
def initState {R : Type} [LinearOrderedField R] : SimState R :=
  { posX := 0, posY := 0, posZ := 0, rotX := 0, rotY := 0, rotZ := 0,
    isHovering := false, running := false, crashed := false,
    throttle := 0, slept := 0, mission := Mission.free,
    logs := ["System initialized. Ready."] }

/-- The fixed log messages of the simulator. -/
def assemblyMsg : String := "ERROR: Drone is not fully built. Complete assembly first."

/-- The thrust-to-weight rejection message. -/
def twrMsg : String := "ERROR: Thrust-to-Weight Ratio too low. Cannot takeoff."

/-- The crashed rejection message. -/
def crashMsg : String := "ERROR: Drone is crashed. Reset required."

/-- The message logged when a run starts. -/
def startMsg : String := "Starting execution..."

/-- The message logged when the command loop ends. -/
def finishMsg : String := "Execution finished."

/-- The mission completion message. -/
def missionMsg : String := "MISSION COMPLETE: Passed through hoop!"

/-- The message logged by the stop button. -/
def stopMsg : String := "Execution stopped. Drone reset."

/-! ## The command interpreter (runCode, Simulator.tsx lines 268-388) -/

/-- The mission check run after every executed line.  It reads the
captured activeMission and the captured dronePos, not the live ones: the
distance to the hoop at (0, 3, -5) is computed from the position the drone
had when the run button was pressed. -/
def missionCheck {R : Type} [LinearOrderedField R] (mo : MathOps R) (cap : Captured R)
    (s : SimState R) : SimState R :=
  if cap.mission0 = Mission.hoop then
    if mo.sqrt (cap.posX0 ^ 2 + (cap.posY0 - 3) ^ 2 + (cap.posZ0 - (-5)) ^ 2) < 1.5 then
      { s with logs := s.logs ++ [missionMsg], mission := Mission.free }
    else s
  else s

/-- One iteration of the command loop body: log the line, dispatch on the
known prefixes, then run the mission check.  Position updates thread the
live store (the source uses functional setDronePos updates); frame
relative moves use the loop-local currentRot yaw.  The transient throttle
level held during a settle wait is folded to the value in force once the
command completes, and the wait itself is added to slept. -/
def execLine {R : Type} [LinearOrderedField R] (mo : MathOps R) (cap : Captured R)
    (line : String) (st : LoopState R) : LoopState R :=
  let s1 : SimState R := { st.store with logs := st.store.logs ++ ["Executing: " ++ line] }
  let res : SimState R × R × R × R :=
    if strStarts line "takeoff()" then
      ({ s1 with isHovering := true, throttle := 0.3, posY := 2,
                 slept := s1.slept + 1500 }, st.curX, st.curY, st.curZ)
    else if strStarts line "land()" then
      ({ s1 with throttle := 0, posY := 0, isHovering := false,
                 slept := s1.slept + 1500 }, st.curX, st.curY, st.curZ)
    else if strStarts line "forward(" then
      ({ s1 with throttle := 0.3,
                 posX := s1.posX + mo.sin st.curY * (numArg line 1 : R),
                 posZ := s1.posZ + mo.cos st.curY * (numArg line 1 : R),
                 slept := s1.slept + 1500 }, st.curX, st.curY, st.curZ)
    else if strStarts line "backward(" then
      ({ s1 with throttle := 0.3,
                 posX := s1.posX - mo.sin st.curY * (numArg line 1 : R),
                 posZ := s1.posZ - mo.cos st.curY * (numArg line 1 : R),
                 slept := s1.slept + 1500 }, st.curX, st.curY, st.curZ)
    else if strStarts line "left(" then
      ({ s1 with throttle := 0.3,
                 posX := s1.posX + mo.sin (st.curY + mo.pi / 2) * (numArg line 1 : R),
                 posZ := s1.posZ + mo.cos (st.curY + mo.pi / 2) * (numArg line 1 : R),
                 slept := s1.slept + 1500 }, st.curX, st.curY, st.curZ)
    else if strStarts line "right(" then
      ({ s1 with throttle := 0.3,
                 posX := s1.posX + mo.sin (st.curY - mo.pi / 2) * (numArg line 1 : R),
                 posZ := s1.posZ + mo.cos (st.curY - mo.pi / 2) * (numArg line 1 : R),
                 slept := s1.slept + 1500 }, st.curX, st.curY, st.curZ)
    else if strStarts line "yaw(" then
      let newY := st.curY + (numArg line 90 : R) * (mo.pi / 180)
      ({ s1 with rotX := st.curX, rotY := newY, rotZ := st.curZ,
                 slept := s1.slept + 1500 }, st.curX, newY, st.curZ)
    else if strStarts line "hover(" then
      ({ s1 with throttle := 0.3,
                 slept := s1.slept + (numArg line 1 : ℚ) * 1000 }, st.curX, st.curY, st.curZ)
    else if strStarts line "waypoint(" then
      match searchWaypoint line.toList with
      | some g =>
        ({ s1 with throttle := 0.3,
                   posX := (((jsParseFloat g.1).getD 0 : ℚ) : R),
                   posZ := (((jsParseFloat g.2).getD 0 : ℚ) : R),
                   slept := s1.slept + 2000 }, st.curX, st.curY, st.curZ)
      | none => (s1, st.curX, st.curY, st.curZ)
    else if strStarts line "print_telemetry()" then
      ({ s1 with logs := s1.logs ++
          ["Telemetry - Alt: " ++ mo.fmt cap.posY0 ++ "m, Bat: " ++ mo.fmt cap.battV0 ++ "V"] },
       st.curX, st.curY, st.curZ)
    else
      ({ s1 with logs := s1.logs ++ ["Unknown command: " ++ line] },
       st.curX, st.curY, st.curZ)
  { store := missionCheck mo cap res.1,
    curX := res.2.1, curY := res.2.2.1, curZ := res.2.2.2 }

/-- The command loop.  Before executing each line the source tests the
captured isRunning value and breaks when it is false; since the closure
value never changes during a run, the guard is the captured flag. -/
def runLoop {R : Type} [LinearOrderedField R] (mo : MathOps R) (cap : Captured R) :
    List String → LoopState R → LoopState R
  | [], st => st
  | l :: ls, st =>
    if cap.running0 then runLoop mo cap ls (execLine mo cap l st) else st

/-- The snapshot of the state the runCode closure captured at invocation. -/
def capture {R : Type} [LinearOrderedField R] (s : SimState R) (battV : R) : Captured R :=
  { running0 := s.running, posX0 := s.posX, posY0 := s.posY, posZ0 := s.posZ,
    battV0 := battV, mission0 := s.mission }

/-- runCode: the three rejection checks in source order, then the run.
The fullyBuilt and canFlyNow arguments are the derived isFullyBuilt and
canFly values the closure reads; battV is the captured batteryVoltage.
On rejection only the log changes.  Otherwise isRunning is set, the start
message logged, the parsed lines executed by the loop, and afterwards the
finish message logged, isRunning cleared and throttle zeroed. -/
def runCode {R : Type} [LinearOrderedField R] (mo : MathOps R)
    (fullyBuilt canFlyNow : Bool) (battV : R) (code : String) (s : SimState R) : SimState R :=
  if fullyBuilt = false then { s with logs := s.logs ++ [assemblyMsg] }
  else if canFlyNow = false then { s with logs := s.logs ++ [twrMsg] }
  else if s.crashed = true then { s with logs := s.logs ++ [crashMsg] }
  else
    let cap := capture s battV
    let stFin := runLoop mo cap (parseLines code)
      { store := { s with running := true, logs := s.logs ++ [startMsg] },
        curX := s.rotX, curY := s.rotY, curZ := s.rotZ }
    { stFin.store with logs := stFin.store.logs ++ [finishMsg],
                       running := false, throttle := 0 }

/-! ## Manual override (handleManualCommand, lines 214-266) -/

/-- handleManualCommand: returns unchanged (no log) unless fullyBuilt,
then logs the override line and applies the immediate effect of the
action; magnitudes are fixed at 1 unit and 15 degrees.  The
setTimeout-deferred writes (throttle decay to hover, and the disarm one
second after a manual land) are outside this single-step model. -/
def handleManualCommand {R : Type} [LinearOrderedField R] (mo : MathOps R)
    (fullyBuilt : Bool) (cmd : String) (s : SimState R) : SimState R :=
  if fullyBuilt = false then s
  else
    let yaw := s.rotY
    let s1 : SimState R := { s with logs := s.logs ++ ["Manual Override: " ++ strUpper cmd] }
    if cmd = "takeoff" then { s1 with isHovering := true, throttle := 0.8, posY := 2 }
    else if cmd = "land" then { s1 with throttle := 0.1, posY := 0 }
    else if cmd = "forward" then
      { s1 with throttle := 0.5,
                posX := s1.posX + mo.sin yaw * 1, posZ := s1.posZ + mo.cos yaw * 1 }
    else if cmd = "backward" then
      { s1 with throttle := 0.5,
                posX := s1.posX - mo.sin yaw * 1, posZ := s1.posZ - mo.cos yaw * 1 }
    else if cmd = "left" then
      { s1 with throttle := 0.5,
                posX := s1.posX + mo.sin (yaw + mo.pi / 2) * 1,
                posZ := s1.posZ + mo.cos (yaw + mo.pi / 2) * 1 }
    else if cmd = "right" then
      { s1 with throttle := 0.5,
                posX := s1.posX + mo.sin (yaw - mo.pi / 2) * 1,
                posZ := s1.posZ + mo.cos (yaw - mo.pi / 2) * 1 }
    else if cmd = "yaw_left" then { s1 with rotY := s1.rotY + 15 * mo.pi / 180 }
    else if cmd = "yaw_right" then { s1 with rotY := s1.rotY - 15 * mo.pi / 180 }
    else s1

/-! ## Stop (stopCode, lines 390-398) -/

/-- stopCode: unconditional reset of the session. -/
def stopCode {R : Type} [LinearOrderedField R] (s : SimState R) : SimState R :=
  { s with running := false, isHovering := false, crashed := false, throttle := 0,
           posX := 0, posY := 0, posZ := 0, rotX := 0, rotY := 0, rotZ := 0,
           logs := s.logs ++ [stopMsg] }

/-! ## Ambient physics flavoring (PhysicsEngine useFrame, lines 71-111) -/

/-- One frame tick: wind drift on x and z under the deadband test, and the
PID wobble on the roll and pitch tilt components, all gated on not crashed
and on hovering while the running prop holds. -/
def tick {R : Type} [LinearOrderedField R] (mo : MathOps R)
    (windX windZ pGain time delta : R) (hovering runningFlag crashed : Bool)
    (px py pz rx ry rz : R) : (R × R × R) × (R × R × R) :=
  if crashed then ((px, py, pz), (rx, ry, rz))
  else if hovering && runningFlag then
    let newX := px + windX * 0.5 * delta
    let newZ := pz + windZ * 0.5 * delta
    let pos := if |windX| > 0.1 ∨ |windZ| > 0.1 then (newX, py, newZ) else (px, py, pz)
    let rot :=
      if pGain ≠ 1 then
        let wobX :=
          if pGain < 0.8 then mo.sin (time * 2) * (1 - pGain) * 0.2
          else if pGain > 1.2 then mo.sin (time * 20) * (pGain - 1) * 0.1
          else 0
        let wobZ :=
          if pGain < 0.8 then mo.cos (time * 2.5) * (1 - pGain) * 0.2
          else if pGain > 1.2 then mo.cos (time * 20) * (pGain - 1) * 0.1
          else 0
        if |wobX| > 0.01 ∨ |wobZ| > 0.01 then (wobX, ry, wobZ) else (rx, ry, rz)
      else if rx ≠ 0 ∨ rz ≠ 0 then ((0 : R), ry, (0 : R)) else (rx, ry, rz)
    (pos, rot)
  else ((px, py, pz), (rx, ry, rz))

/-- The tick applied to the session state, with the props the component
receives at its call site: the running prop is isRunning or isHovering.
The component holds only the position and rotation setters, so every other
field passes through. -/
def tickSim {R : Type} [LinearOrderedField R] (mo : MathOps R)
    (windX windZ pGain time delta : R) (s : SimState R) : SimState R :=
  let pr := tick mo windX windZ pGain time delta
    s.isHovering (s.running || s.isHovering) s.crashed
    s.posX s.posY s.posZ s.rotX s.rotY s.rotZ
  { s with posX := pr.1.1, posY := pr.1.2.1, posZ := pr.1.2.2,
           rotX := pr.2.1, rotY := pr.2.2.1, rotZ := pr.2.2.2 }

/-- The trivial math context over the rationals used to evaluate runs whose
claims do not depend on trigonometric values. -/
def moQ : MathOps ℚ :=
  { pi := 0, sin := fun _ => 0, cos := fun _ => 1, sqrt := fun _ => 9, fmt := fun _ => "" }

/-- Number of log lines containing the Executing marker. -/
def countExec (ls : List String) : ℕ :=
  (ls.filter (fun l => containsStr l "Executing:")).length

/-- Whether some log line contains the ERROR marker. -/
def hasErrLine (ls : List String) : Bool :=
  ls.any (fun l => containsStr l "ERROR")

/-- The six-line test script of the spec (the default script without its
comment lines). -/
def scriptSix : String :=
  "takeoff()\nhover(2)\nforward(3)\nyaw(90)\nforward(3)\nland()"

/-- The rejection message runCode logs, in check order. -/
def rejMsg (fullyBuilt canFlyNow : Bool) : String :=
  if fullyBuilt = false then assemblyMsg
  else if canFlyNow = false then twrMsg
  else crashMsg

/-- Whether a line starts with one of the known command prefixes: the
dispatch conditions of the interpreter, in source order. -/
def isKnownLine (l : String) : Bool :=
  strStarts l "takeoff()" || strStarts l "land()" || strStarts l "forward(" ||
  strStarts l "backward(" || strStarts l "left(" || strStarts l "right(" ||
  strStarts l "yaw(" || strStarts l "hover(" || strStarts l "waypoint(" ||
  strStarts l "print_telemetry()"

/-- The two-line script of the mission scenario: climb, then fly to the
point under the hoop. -/
def scriptHoop : String := "takeoff()\nwaypoint(0, -5)"

/-- The captured snapshot of the six-line run with the loop guard flag
forced to true: the value it would hold if the closure read the live
isRunning flag the source sets just before the loop. -/
def capSix : Captured ℚ :=
  { running0 := true, posX0 := 0, posY0 := 0, posZ0 := 0,
    battV0 := 16.8, mission0 := Mission.free }

/-- The loop entry state of the six-line run: the initial session state
with the running flag set and the start message logged. -/
def stSix : LoopState ℚ :=
  { store :=
      { posX := 0, posY := 0, posZ := 0, rotX := 0, rotY := 0, rotZ := 0,
        isHovering := false, running := true, crashed := false,
        throttle := 0, slept := 0, mission := Mission.free,
        logs := ["System initialized. Ready.", startMsg] },
    curX := 0, curY := 0, curZ := 0 }


/-! ## Registry lemmas -/

/-- Total weight is at most the sum of all component weights. -/
lemma totalWeight_le (bs : BuildState) : totalWeight bs ≤ 785 := by
  unfold totalWeight
  have h1 : (if bs.frame then (150 : ℚ) else 0) ≤ 150 := by split <;> norm_num
  have h2 : (if bs.motors then (120 : ℚ) else 0) ≤ 120 := by split <;> norm_num
  have h3 : (if bs.esc then (20 : ℚ) else 0) ≤ 20 := by split <;> norm_num
  have h4 : (if bs.fc then (10 : ℚ) else 0) ≤ 10 := by split <;> norm_num
  have h5 : (if bs.camera then (15 : ℚ) else 0) ≤ 15 := by split <;> norm_num
  have h6 : (if bs.battery then (250 : ℚ) else 0) ≤ 250 := by split <;> norm_num
  have h7 : (if bs.props then (20 : ℚ) else 0) ≤ 20 := by split <;> norm_num
  have h8 : (if bs.wings then (200 : ℚ) else 0) ≤ 200 := by split <;> norm_num
  linarith

/-- With motors, props and battery installed the weight is at least the sum
of those three components. -/
lemma totalWeight_ge (bs : BuildState) (hm : bs.motors = true) (hp : bs.props = true)
    (hb : bs.battery = true) : 390 ≤ totalWeight bs := by
  unfold totalWeight
  rw [hm, hp, hb]
  have h1 : (0 : ℚ) ≤ (if bs.frame then (150 : ℚ) else 0) := by split <;> norm_num
  have h3 : (0 : ℚ) ≤ (if bs.esc then (20 : ℚ) else 0) := by split <;> norm_num
  have h4 : (0 : ℚ) ≤ (if bs.fc then (10 : ℚ) else 0) := by split <;> norm_num
  have h5 : (0 : ℚ) ≤ (if bs.camera then (15 : ℚ) else 0) := by split <;> norm_num
  have h8 : (0 : ℚ) ≤ (if bs.wings then (200 : ℚ) else 0) := by split <;> norm_num
  simp only [if_true]
  linarith

/-- With motors, props and battery installed the exact thrust-to-weight
ratio exceeds 2. -/
lemma ratio_gt_two (dt : DroneType) (bs : BuildState) (hm : bs.motors = true)
    (hp : bs.props = true) (hb : bs.battery = true) :
    (2 : ℚ) < maxThrust dt bs / totalWeight bs ∧ (0 : ℚ) < totalWeight bs ∧
      (0 : ℚ) < maxThrust dt bs := by
  have hW1 := totalWeight_ge bs hm hp hb
  have hW2 := totalWeight_le bs
  have hW0 : (0 : ℚ) < totalWeight bs := by linarith
  have hT : maxThrust dt bs = 3200 ∨ maxThrust dt bs = 2000 := by
    unfold maxThrust
    rw [hm, hp, hb]
    cases dt <;> simp
  have hTlb : (2000 : ℚ) ≤ maxThrust dt bs := by
    rcases hT with h | h
    · rw [h]
      norm_num
    · rw [h]
  refine ⟨?_, hW0, by linarith⟩
  rw [lt_div_iff₀ hW0]
  nlinarith

/-- With motors, props and battery installed the displayed (rounded) ratio
exceeds 1.2, hence canFly. -/
lemma canFly_of_parts (dt : DroneType) (bs : BuildState) (hm : bs.motors = true)
    (hp : bs.props = true) (hb : bs.battery = true) : canFly dt bs = true := by
  obtain ⟨hratio, hW0, hTpos⟩ := ratio_gt_two dt bs hm hp hb
  unfold canFly twrDisplayed
  rw [if_pos hTpos]
  simp only [decide_eq_true_eq, gt_iff_lt]
  unfold toFixed1
  have hfl := Int.sub_one_lt_floor ((maxThrust dt bs / totalWeight bs) * 10 + 1 / 2)
  rw [lt_div_iff₀ (by norm_num : (0 : ℚ) < 10)]
  linarith

/-- A fully built registry of either variant has motors, props and battery
installed, hence canFly holds: with the fixed component specs the
interpreter gate isFullyBuilt and canFly is extensionally the gate
isFullyBuilt alone. -/
lemma canFly_of_fullyBuilt (dt : DroneType) (bs : BuildState)
    (h : isFullyBuilt dt bs = true) : canFly dt bs = true := by
  apply canFly_of_parts dt bs <;>
  · cases dt <;> simp only [isFullyBuilt, Bool.and_eq_true] at h <;> tauto

/-- C6: for every registry configuration and drone type, canFly is true iff
the exact ratio maxThrust / totalWeight (0 when totalWeight is 0) exceeds
1.2, and a configuration whose exact ratio equals 1.2 has canFly false.
The displayed rounding never flips the comparison because every
configuration with positive thrust has ratio above 2. -/
theorem c6_canFly_iff_twr :
    ∀ (dt : DroneType) (bs : BuildState),
      (canFly dt bs = true ↔ twrSpecFormula dt bs > 1.2) ∧
      (twrSpecFormula dt bs = 1.2 → canFly dt bs = false) := by
  intro dt bs
  cases hmb : (bs.motors && bs.props && bs.battery) with
  | true =>
    rw [Bool.and_eq_true, Bool.and_eq_true] at hmb
    obtain ⟨⟨hm, hp⟩, hb⟩ := hmb
    obtain ⟨hratio, hW0, _⟩ := ratio_gt_two dt bs hm hp hb
    have hspec : twrSpecFormula dt bs = maxThrust dt bs / totalWeight bs := by
      unfold twrSpecFormula
      rw [if_neg (ne_of_gt hW0)]
    constructor
    · constructor
      · intro _
        rw [gt_iff_lt, hspec]
        linarith
      · intro _
        exact canFly_of_parts dt bs hm hp hb
    · intro habs
      exfalso
      rw [hspec] at habs
      rw [habs] at hratio
      norm_num at hratio
  | false =>
    have hT0 : maxThrust dt bs = 0 := by
      unfold maxThrust
      rw [hmb]
      rfl
    have hd : twrDisplayed dt bs = 0 := by
      unfold twrDisplayed
      rw [hT0]
      norm_num
    have hcf : canFly dt bs = false := by
      unfold canFly
      rw [hd, decide_eq_false_iff_not]
      norm_num
    have hs : twrSpecFormula dt bs = 0 := by
      unfold twrSpecFormula
      rw [hT0]
      split <;> simp
    refine ⟨?_, fun _ => hcf⟩
    rw [hcf, hs]
    constructor
    · intro h
      exact absurd h (by simp)
    · intro h
      norm_num at h

/-! ## Prefix dispatch lemmas -/

/-- Two prefixes of the same string start with the same character. -/
lemma strStarts_head_eq {s p q : String} {c d : Char} {cp cq : List Char}
    (hp : strStarts s p = true) (hpl : p.toList = c :: cp)
    (hq : strStarts s q = true) (hql : q.toList = d :: cq) : c = d := by
  unfold strStarts at hp hq
  rw [hpl] at hp
  rw [hql] at hq
  rw [List.isPrefixOf_iff_prefix] at hp hq
  obtain ⟨t, ht⟩ := hp
  obtain ⟨u, hu⟩ := hq
  have h2 := ht.trans hu.symm
  simp only [List.cons_append] at h2
  exact (List.cons.inj h2).1

/-- A string starting with one prefix does not start with a prefix whose
first character differs. -/
lemma starts_false_of_head_ne {s p q : String} {c d : Char} {cp cq : List Char}
    (hp : strStarts s p = true) (hpl : p.toList = c :: cp) (hql : q.toList = d :: cq)
    (hne : c ≠ d) : strStarts s q = false := by
  cases hq : strStarts s q with
  | false => rfl
  | true => exact absurd (strStarts_head_eq hp hpl hq hql) hne

/-- When the captured mission is FreeFlight the per-line mission check does
nothing. -/
lemma missionCheck_free {R : Type} [LinearOrderedField R] (mo : MathOps R)
    (cap : Captured R) (hm : cap.mission0 = Mission.free) :
    ∀ s : SimState R, missionCheck mo cap s = s := by
  intro s
  unfold missionCheck
  rw [hm]
  rfl

/-! ## C2: rejection preconditions of runCode -/

/-- C2: invoking the interpreter with an unmet precondition, in the source
check order isFullyBuilt, canFly, not crashed, appends exactly one ERROR
log line, leaves every Drone State field unchanged, does not enter the
running state, and produces the same result for any script text: the
checks happen once at invocation, not per line. -/
theorem c2_rejection {R : Type} [LinearOrderedField R] (mo : MathOps R)
    (fullyBuilt canFlyNow : Bool) (battV : R) (code other : String) (s : SimState R)
    (h : fullyBuilt = false ∨ canFlyNow = false ∨ s.crashed = true) :
    (runCode mo fullyBuilt canFlyNow battV code s).logs
        = s.logs ++ [rejMsg fullyBuilt canFlyNow] ∧
    containsStr (rejMsg fullyBuilt canFlyNow) "ERROR" = true ∧
    (runCode mo fullyBuilt canFlyNow battV code s).posX = s.posX ∧
    (runCode mo fullyBuilt canFlyNow battV code s).posY = s.posY ∧
    (runCode mo fullyBuilt canFlyNow battV code s).posZ = s.posZ ∧
    (runCode mo fullyBuilt canFlyNow battV code s).rotY = s.rotY ∧
    (runCode mo fullyBuilt canFlyNow battV code s).isHovering = s.isHovering ∧
    (runCode mo fullyBuilt canFlyNow battV code s).throttle = s.throttle ∧
    (runCode mo fullyBuilt canFlyNow battV code s).running = s.running ∧
    (runCode mo fullyBuilt canFlyNow battV code s).crashed = s.crashed ∧
    (runCode mo fullyBuilt canFlyNow battV code s).mission = s.mission ∧
    runCode mo fullyBuilt canFlyNow battV code s
        = runCode mo fullyBuilt canFlyNow battV other s := by
  cases fullyBuilt with
  | false =>
    cases canFlyNow with
    | false => exact ⟨rfl, by decide, rfl, rfl, rfl, rfl, rfl, rfl, rfl, rfl, rfl, rfl⟩
    | true => exact ⟨rfl, by decide, rfl, rfl, rfl, rfl, rfl, rfl, rfl, rfl, rfl, rfl⟩
  | true =>
    cases canFlyNow with
    | false => exact ⟨rfl, by decide, rfl, rfl, rfl, rfl, rfl, rfl, rfl, rfl, rfl, rfl⟩
    | true =>
      have hcr : s.crashed = true := by
        rcases h with h | h | h
        · exact absurd h (by decide)
        · exact absurd h (by decide)
        · exact h
      have hred : ∀ c2 : String, runCode mo true true battV c2 s
          = { s with logs := s.logs ++ [crashMsg] } := by
        intro c2
        unfold runCode
        rw [hcr]
        rfl
      rw [hred code, hred other]
      exact ⟨rfl, by decide, rfl, rfl, rfl, rfl, rfl, rfl, rfl, rfl, rfl, rfl⟩

/-- Witness for C2 at a concrete rejection: registry not fully built. -/
theorem c2_rejection_witness :
    (runCode moQ false true 16.8 "takeoff()" (initState : SimState ℚ)).logs
        = (initState : SimState ℚ).logs ++ [rejMsg false true] ∧
    containsStr (rejMsg false true) "ERROR" = true ∧
    (runCode moQ false true 16.8 "takeoff()" (initState : SimState ℚ)).posX
        = (initState : SimState ℚ).posX ∧
    (runCode moQ false true 16.8 "takeoff()" (initState : SimState ℚ)).posY
        = (initState : SimState ℚ).posY ∧
    (runCode moQ false true 16.8 "takeoff()" (initState : SimState ℚ)).posZ
        = (initState : SimState ℚ).posZ ∧
    (runCode moQ false true 16.8 "takeoff()" (initState : SimState ℚ)).rotY
        = (initState : SimState ℚ).rotY ∧
    (runCode moQ false true 16.8 "takeoff()" (initState : SimState ℚ)).isHovering
        = (initState : SimState ℚ).isHovering ∧
    (runCode moQ false true 16.8 "takeoff()" (initState : SimState ℚ)).throttle
        = (initState : SimState ℚ).throttle ∧
    (runCode moQ false true 16.8 "takeoff()" (initState : SimState ℚ)).running
        = (initState : SimState ℚ).running ∧
    (runCode moQ false true 16.8 "takeoff()" (initState : SimState ℚ)).crashed
        = (initState : SimState ℚ).crashed ∧
    (runCode moQ false true 16.8 "takeoff()" (initState : SimState ℚ)).mission
        = (initState : SimState ℚ).mission ∧
    runCode moQ false true 16.8 "takeoff()" (initState : SimState ℚ)
        = runCode moQ false true 16.8 "land()" (initState : SimState ℚ) :=
  c2_rejection moQ false true 16.8 "takeoff()" "land()" initState (Or.inl rfl)

/-! ## C3: the manual override gate -/

/-- C3 counterexample: with the default registry (only the frame installed)
the flyability gate fails, and applying the manual forward action returns
the state completely unchanged, the log included: no descriptive error is
logged, contradicting the claim that the rejection logs a message. -/
theorem c3_counterexample :
    isFullyBuilt DroneType.quadcopter onlyFrame = false ∧
    handleManualCommand moQ (isFullyBuilt DroneType.quadcopter onlyFrame) "forward"
        (initState : SimState ℚ) = initState :=
  ⟨rfl, rfl⟩

/-- C3 amended: the manual controller checks isFullyBuilt only, and on
failure silently ignores the command, leaving the whole state including
the log unchanged; with the fixed component specs isFullyBuilt implies
canFly, so the gate is extensionally the interpreter gate isFullyBuilt
and canFly. -/
theorem c3_manual_gate_silent {R : Type} [LinearOrderedField R] (mo : MathOps R)
    (cmd : String) (s : SimState R) (dt : DroneType) (bs : BuildState)
    (hnb : isFullyBuilt dt bs = false) :
    handleManualCommand mo (isFullyBuilt dt bs) cmd s = s ∧
    (∀ (dt2 : DroneType) (bs2 : BuildState),
      isFullyBuilt dt2 bs2 = true → canFly dt2 bs2 = true) := by
  refine ⟨?_, canFly_of_fullyBuilt⟩
  rw [hnb]
  rfl

/-- Witness for C3 amended at the default registry and the forward action. -/
theorem c3_manual_gate_silent_witness :
    handleManualCommand moQ (isFullyBuilt DroneType.quadcopter onlyFrame) "forward"
        (initState : SimState ℚ) = initState ∧
    (∀ (dt2 : DroneType) (bs2 : BuildState),
      isFullyBuilt dt2 bs2 = true → canFly dt2 bs2 = true) :=
  c3_manual_gate_silent moQ "forward" initState DroneType.quadcopter onlyFrame rfl

/-! ## C4: stop resets everything unconditionally -/

/-- C4: stopCode succeeds from every state with no precondition: position
and heading return to zero, armed is cleared, throttle zeroed, crashed
cleared, the running flag cleared, and the stop message logged. -/
theorem c4_stop_reset {R : Type} [LinearOrderedField R] (s : SimState R) :
    (stopCode s).posX = 0 ∧ (stopCode s).posY = 0 ∧ (stopCode s).posZ = 0 ∧
    (stopCode s).rotX = 0 ∧ (stopCode s).rotY = 0 ∧ (stopCode s).rotZ = 0 ∧
    (stopCode s).isHovering = false ∧ (stopCode s).throttle = 0 ∧
    (stopCode s).crashed = false ∧ (stopCode s).running = false ∧
    (stopCode s).logs = s.logs ++ [stopMsg] :=
  ⟨rfl, rfl, rfl, rfl, rfl, rfl, rfl, rfl, rfl, rfl, rfl⟩

/-! ## C1: the six-line script run -/

/-- C1: running the six-line script on a flyable registry.  As coded, the
loop guard tests the isRunning value captured at render time, which is
false when the run button is pressed, so the loop breaks before the first
command: the run appends only the start and finish messages, zero
Executing lines, and no state changes, contradicting the claimed six
Executing lines.  The second half executes the same loop with the guard
flag holding the live value true (capSix equals the captured snapshot
with only that flag flipped, and stSix the loop entry state) and derives
exactly the behaviour the claim describes: six Executing lines, no ERROR
line, disarmed, altitude zero. -/
theorem c1_six_line_run :
    ((runCode moQ true true 16.8 scriptSix (initState : SimState ℚ)).logs
        = ["System initialized. Ready.", startMsg, finishMsg] ∧
     countExec (runCode moQ true true 16.8 scriptSix (initState : SimState ℚ)).logs = 0 ∧
     (runCode moQ true true 16.8 scriptSix (initState : SimState ℚ)).posY = 0 ∧
     (runCode moQ true true 16.8 scriptSix (initState : SimState ℚ)).isHovering = false ∧
     (runCode moQ true true 16.8 scriptSix (initState : SimState ℚ)).running = false) ∧
    (capSix = { (capture (initState : SimState ℚ) 16.8) with running0 := true } ∧
     stSix.store = { (initState : SimState ℚ) with running := true, logs := (initState : SimState ℚ).logs ++ [startMsg] } ∧
     stSix.curX = 0 ∧ stSix.curY = 0 ∧ stSix.curZ = 0 ∧
     parseLines scriptSix
        = ["takeoff()", "hover(2)", "forward(3)", "yaw(90)", "forward(3)", "land()"] ∧
     (runLoop moQ capSix (parseLines scriptSix) stSix).store.logs
        = ["System initialized. Ready.", startMsg,
           "Executing: takeoff()", "Executing: hover(2)", "Executing: forward(3)",
           "Executing: yaw(90)", "Executing: forward(3)", "Executing: land()"] ∧
     countExec (runLoop moQ capSix (parseLines scriptSix) stSix).store.logs = 6 ∧
     hasErrLine (runLoop moQ capSix (parseLines scriptSix) stSix).store.logs = false ∧
     (runLoop moQ capSix (parseLines scriptSix) stSix).store.posY = 0 ∧
     (runLoop moQ capSix (parseLines scriptSix) stSix).store.isHovering = false) := by
  refine ⟨⟨by decide, by decide, rfl, by decide, by decide⟩,
          ⟨rfl, rfl, rfl, rfl, rfl, by decide, by decide, by decide,
           by decide, rfl, by decide⟩⟩

/-! ## Branch lemmas for execLine on abstract lines -/

/-- A line starting with the yaw prefix takes the yaw branch: the signed
degree argument, converted by pi over 180, is added to the loop-local yaw,
and the whole local rotation triple is published to the store. -/
lemma execLine_yaw {R : Type} [LinearOrderedField R] (mo : MathOps R) (cap : Captured R)
    (l : String) (st : LoopState R) (hl : strStarts l "yaw(" = true) :
    execLine mo cap l st =
      { store := missionCheck mo cap
          { st.store with
              logs := st.store.logs ++ ["Executing: " ++ l],
              rotX := st.curX,
              rotY := st.curY + (numArg l 90 : R) * (mo.pi / 180),
              rotZ := st.curZ,
              slept := st.store.slept + 1500 },
        curX := st.curX, curY := st.curY + (numArg l 90 : R) * (mo.pi / 180),
        curZ := st.curZ } := by
  have h1 : strStarts l "takeoff()" = false := starts_false_of_head_ne hl rfl rfl (by decide)
  have h2 : strStarts l "land()" = false := starts_false_of_head_ne hl rfl rfl (by decide)
  have h3 : strStarts l "forward(" = false := starts_false_of_head_ne hl rfl rfl (by decide)
  have h4 : strStarts l "backward(" = false := starts_false_of_head_ne hl rfl rfl (by decide)
  have h5 : strStarts l "left(" = false := starts_false_of_head_ne hl rfl rfl (by decide)
  have h6 : strStarts l "right(" = false := starts_false_of_head_ne hl rfl rfl (by decide)
  unfold execLine
  rw [h1, h2, h3, h4, h5, h6, hl]
  rfl

/-- A line starting with the forward prefix takes the forward branch:
displacement along the heading-rotated basis by the extracted digit-run
argument. -/
lemma execLine_forward {R : Type} [LinearOrderedField R] (mo : MathOps R) (cap : Captured R)
    (l : String) (st : LoopState R) (hl : strStarts l "forward(" = true) :
    execLine mo cap l st =
      { store := missionCheck mo cap
          { st.store with
              logs := st.store.logs ++ ["Executing: " ++ l],
              throttle := 0.3,
              posX := st.store.posX + mo.sin st.curY * (numArg l 1 : R),
              posZ := st.store.posZ + mo.cos st.curY * (numArg l 1 : R),
              slept := st.store.slept + 1500 },
        curX := st.curX, curY := st.curY, curZ := st.curZ } := by
  have h1 : strStarts l "takeoff()" = false := starts_false_of_head_ne hl rfl rfl (by decide)
  have h2 : strStarts l "land()" = false := starts_false_of_head_ne hl rfl rfl (by decide)
  unfold execLine
  rw [h1, h2, hl]
  rfl

/-- A waypoint line whose arguments fail the regex is dispatched to the
waypoint branch but matches nothing: only the Executing log is appended,
and no position, throttle or settle change happens. -/
lemma execLine_waypoint_none {R : Type} [LinearOrderedField R] (mo : MathOps R)
    (cap : Captured R) (l : String) (st : LoopState R)
    (hl : strStarts l "waypoint(" = true) (hm : searchWaypoint l.toList = none) :
    execLine mo cap l st =
      { store := missionCheck mo cap
          { st.store with logs := st.store.logs ++ ["Executing: " ++ l] },
        curX := st.curX, curY := st.curY, curZ := st.curZ } := by
  have h1 : strStarts l "takeoff()" = false := starts_false_of_head_ne hl rfl rfl (by decide)
  have h2 : strStarts l "land()" = false := starts_false_of_head_ne hl rfl rfl (by decide)
  have h3 : strStarts l "forward(" = false := starts_false_of_head_ne hl rfl rfl (by decide)
  have h4 : strStarts l "backward(" = false := starts_false_of_head_ne hl rfl rfl (by decide)
  have h5 : strStarts l "left(" = false := starts_false_of_head_ne hl rfl rfl (by decide)
  have h6 : strStarts l "right(" = false := starts_false_of_head_ne hl rfl rfl (by decide)
  have h7 : strStarts l "yaw(" = false := starts_false_of_head_ne hl rfl rfl (by decide)
  have h8 : strStarts l "hover(" = false := starts_false_of_head_ne hl rfl rfl (by decide)
  unfold execLine
  rw [h1, h2, h3, h4, h5, h6, h7, h8, hl, hm]
  rfl

/-- A line matching no known prefix takes the final branch: the Executing
log and the Unknown command log are appended and nothing else changes. -/
lemma execLine_unknown {R : Type} [LinearOrderedField R] (mo : MathOps R)
    (cap : Captured R) (l : String) (st : LoopState R) (hk : isKnownLine l = false) :
    execLine mo cap l st =
      { store := missionCheck mo cap
          { st.store with logs := (st.store.logs ++ ["Executing: " ++ l])
              ++ ["Unknown command: " ++ l] },
        curX := st.curX, curY := st.curY, curZ := st.curZ } := by
  have h := hk
  simp only [isKnownLine, Bool.or_eq_false_iff] at h
  obtain ⟨⟨⟨⟨⟨⟨⟨⟨⟨h1, h2⟩, h3⟩, h4⟩, h5⟩, h6⟩, h7⟩, h8⟩, h9⟩, h10⟩ := h
  unfold execLine
  rw [h1, h2, h3, h4, h5, h6, h7, h8, h9, h10]
  rfl

/-! ## C5: heading is an unwrapped accumulator -/

/-- C5 counterexample: from the initial state of a fully built quadcopter,
one manual yaw right puts the heading at minus pi over 12 radians, outside
the claimed interval from 0 up to 2 pi. -/
theorem c5_counterexample :
    ¬ (0 ≤ (handleManualCommand (⟨Real.pi, Real.sin, Real.cos, Real.sqrt, fun _ => ""⟩ : MathOps ℝ)
            (isFullyBuilt DroneType.quadcopter fullQuad) "yaw_right" (initState : SimState ℝ)).rotY ∧
       (handleManualCommand (⟨Real.pi, Real.sin, Real.cos, Real.sqrt, fun _ => ""⟩ : MathOps ℝ)
            (isFullyBuilt DroneType.quadcopter fullQuad) "yaw_right" (initState : SimState ℝ)).rotY
          < 2 * Real.pi) := by
  intro hc
  have hrot : (handleManualCommand (⟨Real.pi, Real.sin, Real.cos, Real.sqrt, fun _ => ""⟩ : MathOps ℝ)
      (isFullyBuilt DroneType.quadcopter fullQuad) "yaw_right" (initState : SimState ℝ)).rotY
      = 0 - 15 * Real.pi / 180 := rfl
  rw [hrot] at hc
  have hpi := Real.pi_pos
  linarith [hc.1]

/-- C5 amended: the heading is a plain signed accumulator with no wrapping:
manual yaw left and right add and subtract 15 degrees in radians, and a
script yaw line adds its degree argument times pi over 180 to the
loop-local yaw. -/
theorem c5_heading_unwrapped {R : Type} [LinearOrderedField R] (mo : MathOps R)
    (cap : Captured R) (s : SimState R) (st : LoopState R) (l : String)
    (hl : strStarts l "yaw(" = true) :
    (handleManualCommand mo true "yaw_left" s).rotY = s.rotY + 15 * mo.pi / 180 ∧
    (handleManualCommand mo true "yaw_right" s).rotY = s.rotY - 15 * mo.pi / 180 ∧
    (execLine mo cap l st).curY = st.curY + (numArg l 90 : R) * (mo.pi / 180) := by
  refine ⟨rfl, rfl, ?_⟩
  rw [execLine_yaw mo cap l st hl]

/-- Witness for C5 amended at the concrete line yaw(90). -/
theorem c5_heading_unwrapped_witness :
    (handleManualCommand moQ true "yaw_left" (initState : SimState ℚ)).rotY
        = (initState : SimState ℚ).rotY + 15 * moQ.pi / 180 ∧
    (handleManualCommand moQ true "yaw_right" (initState : SimState ℚ)).rotY
        = (initState : SimState ℚ).rotY - 15 * moQ.pi / 180 ∧
    (execLine moQ capSix "yaw(90)" stSix).curY
        = stSix.curY + (numArg "yaw(90)" 90 : ℚ) * (moQ.pi / 180) :=
  c5_heading_unwrapped moQ capSix (initState : SimState ℚ) stSix "yaw(90)" (by decide)

/-- The mission check never touches position, rotation, throttle, settle
time, the armed flag or the running flag: only the log and the mission
field. -/
lemma missionCheck_fields {R : Type} [LinearOrderedField R] (mo : MathOps R)
    (cap : Captured R) (s : SimState R) :
    (missionCheck mo cap s).posX = s.posX ∧ (missionCheck mo cap s).posY = s.posY ∧
    (missionCheck mo cap s).posZ = s.posZ ∧ (missionCheck mo cap s).rotY = s.rotY ∧
    (missionCheck mo cap s).throttle = s.throttle ∧
    (missionCheck mo cap s).slept = s.slept ∧
    (missionCheck mo cap s).isHovering = s.isHovering ∧
    (missionCheck mo cap s).running = s.running := by
  unfold missionCheck
  split
  · split
    · exact ⟨rfl, rfl, rfl, rfl, rfl, rfl, rfl, rfl⟩
    · exact ⟨rfl, rfl, rfl, rfl, rfl, rfl, rfl, rfl⟩
  · exact ⟨rfl, rfl, rfl, rfl, rfl, rfl, rfl, rfl⟩

/-! ## C7: the parse step, argument extraction and unknown commands -/

/-- C7 counterexample: the line forward(2.5) moves the drone 2 units, not
the first numeric literal 2.5 and not the default 1: the regex extracts
only the digit run before the decimal point. -/
theorem c7_counterexample :
    (execLine moQ capSix "forward(2.5)" stSix).store.posZ = 2 ∧
    ((2 : ℚ) ≠ 5 / 2) ∧ ((2 : ℚ) ≠ 1) := by
  have hnum : numArg "forward(2.5)" 1 = 2 := by decide
  refine ⟨?_, by norm_num, by norm_num⟩
  rw [execLine_forward moQ capSix "forward(2.5)" stSix (by decide),
    missionCheck_free moQ capSix rfl, hnum]
  norm_num [stSix, moQ]

/-- C7 amended: the parse step keeps exactly the non-empty non-comment
lines, each the trimmed lower-cased image of a raw split segment; a
forward line displaces along the heading by the first maximal digit run
found anywhere in the line, with 1 only when the line has no digit at
all (a sign or decimal point is not part of the match); and a line
matching no known prefix logs the unknown-command message, changes no
state, and the loop continues with the remaining lines. -/
theorem c7_parse_and_unknown {R : Type} [LinearOrderedField R] :
    (∀ (code l : String), l ∈ parseLines code →
        l.toList.isEmpty = false ∧ strStarts l "#" = false ∧
        ∃ raw ∈ splitNl code.toList, l = normLine raw) ∧
    (∀ (mo : MathOps R) (cap : Captured R) (st : LoopState R) (l : String),
        strStarts l "forward(" = true →
        (execLine mo cap l st).store.posX
            = st.store.posX + mo.sin st.curY * (numArg l 1 : R) ∧
        (execLine mo cap l st).store.posZ
            = st.store.posZ + mo.cos st.curY * (numArg l 1 : R) ∧
        (firstDigitRun l.toList = none → numArg l 1 = 1)) ∧
    (∀ (mo : MathOps R) (cap : Captured R) (st : LoopState R) (l : String) (ls : List String),
        isKnownLine l = false → cap.mission0 = Mission.free →
        (execLine mo cap l st).store.logs
            = st.store.logs ++ ["Executing: " ++ l, "Unknown command: " ++ l] ∧
        (execLine mo cap l st).store.posX = st.store.posX ∧
        (execLine mo cap l st).store.posY = st.store.posY ∧
        (execLine mo cap l st).store.posZ = st.store.posZ ∧
        (execLine mo cap l st).store.throttle = st.store.throttle ∧
        (execLine mo cap l st).store.slept = st.store.slept ∧
        (execLine mo cap l st).store.isHovering = st.store.isHovering ∧
        (cap.running0 = true →
          runLoop mo cap (l :: ls) st = runLoop mo cap ls (execLine mo cap l st))) := by
  refine ⟨?_, ?_, ?_⟩
  · intro code l hl
    unfold parseLines at hl
    rw [List.mem_filter] at hl
    obtain ⟨hmem, hkeep⟩ := hl
    rw [List.mem_map] at hmem
    obtain ⟨raw, hraw, heq⟩ := hmem
    simp only [keepLine, Bool.and_eq_true, Bool.not_eq_true'] at hkeep
    exact ⟨hkeep.1, hkeep.2, raw, hraw, heq.symm⟩
  · intro mo cap st l hl
    rw [execLine_forward mo cap l st hl]
    refine ⟨(missionCheck_fields mo cap _).1, (missionCheck_fields mo cap _).2.2.1, ?_⟩
    intro h
    have h2 : firstDigitRun l.data = none := h
    simp [numArg, h, h2]
  · intro mo cap st l ls hk hmis
    rw [execLine_unknown mo cap l st hk, missionCheck_free mo cap hmis]
    refine ⟨by simp, rfl, rfl, rfl, rfl, rfl, rfl, ?_⟩
    intro hr
    simp only [runLoop, hr, if_true]
    rw [execLine_unknown mo cap l st hk, missionCheck_free mo cap hmis]

/-! ## C10: malformed waypoint arguments -/

/-- C10 counterexample: executing the line waypoint(abc) does emit a log
line, the unconditional Executing line, so the step is not completely
silent as claimed. -/
theorem c10_counterexample :
    (execLine moQ (capture (initState : SimState ℚ) 16.8) "waypoint(abc)"
        { store := initState, curX := 0, curY := 0, curZ := 0 }).store.logs
      = ["System initialized. Ready.", "Executing: waypoint(abc)"] ∧
    (["System initialized. Ready.", "Executing: waypoint(abc)"] : List String)
      ≠ ["System initialized. Ready."] :=
  ⟨by decide, by decide⟩

/-- C10 amended: a waypoint line whose arguments fail the two-number regex
appends only the unconditional Executing log, and otherwise changes
nothing: no unknown-command log, no position, throttle or settle change;
unlike unrecognized lines, no further log is emitted. -/
theorem c10_malformed_waypoint {R : Type} [LinearOrderedField R] (mo : MathOps R)
    (cap : Captured R) (st : LoopState R) (l : String)
    (hl : strStarts l "waypoint(" = true) (hm : searchWaypoint l.toList = none)
    (hmis : cap.mission0 = Mission.free) :
    (execLine mo cap l st).store.logs = st.store.logs ++ ["Executing: " ++ l] ∧
    (execLine mo cap l st).store.posX = st.store.posX ∧
    (execLine mo cap l st).store.posY = st.store.posY ∧
    (execLine mo cap l st).store.posZ = st.store.posZ ∧
    (execLine mo cap l st).store.throttle = st.store.throttle ∧
    (execLine mo cap l st).store.slept = st.store.slept ∧
    (execLine mo cap l st).store.isHovering = st.store.isHovering ∧
    (execLine mo cap l st).store.rotY = st.store.rotY ∧
    (execLine mo cap l st).store.mission = st.store.mission := by
  rw [execLine_waypoint_none mo cap l st hl hm, missionCheck_free mo cap hmis]
  exact ⟨rfl, rfl, rfl, rfl, rfl, rfl, rfl, rfl, rfl⟩

/-- Witness for C10 amended at the concrete line waypoint(5), which has a
digit but no second argument. -/
theorem c10_malformed_waypoint_witness :
    (execLine moQ capSix "waypoint(5)" stSix).store.logs
        = stSix.store.logs ++ ["Executing: " ++ "waypoint(5)"] ∧
    (execLine moQ capSix "waypoint(5)" stSix).store.posX = stSix.store.posX ∧
    (execLine moQ capSix "waypoint(5)" stSix).store.posY = stSix.store.posY ∧
    (execLine moQ capSix "waypoint(5)" stSix).store.posZ = stSix.store.posZ ∧
    (execLine moQ capSix "waypoint(5)" stSix).store.throttle = stSix.store.throttle ∧
    (execLine moQ capSix "waypoint(5)" stSix).store.slept = stSix.store.slept ∧
    (execLine moQ capSix "waypoint(5)" stSix).store.isHovering = stSix.store.isHovering ∧
    (execLine moQ capSix "waypoint(5)" stSix).store.rotY = stSix.store.rotY ∧
    (execLine moQ capSix "waypoint(5)" stSix).store.mission = stSix.store.mission :=
  c10_malformed_waypoint moQ capSix stSix "waypoint(5)" (by decide) (by decide) rfl

/-! ## C8: the physics tick is cosmetic -/

/-- The tick never changes the altitude component of position. -/
lemma tick_posY {R : Type} [LinearOrderedField R] (mo : MathOps R)
    (windX windZ pGain time delta : R) (hov run cr : Bool) (px py pz rx ry rz : R) :
    (tick mo windX windZ pGain time delta hov run cr px py pz rx ry rz).1.2.1 = py := by
  unfold tick
  split_ifs <;> rfl

/-- The tick never changes the heading component of rotation. -/
lemma tick_rotY {R : Type} [LinearOrderedField R] (mo : MathOps R)
    (windX windZ pGain time delta : R) (hov run cr : Bool) (px py pz rx ry rz : R) :
    (tick mo windX windZ pGain time delta hov run cr px py pz rx ry rz).2.2.1 = ry := by
  unfold tick
  split_ifs <;> first | rfl | (dsimp only; split_ifs <;> rfl)

/-- The position component of the tick does not depend on the PID gain. -/
lemma tick_pos_pGain {R : Type} [LinearOrderedField R] (mo : MathOps R)
    (windX windZ time delta : R) (hov run cr : Bool) (px py pz rx ry rz : R)
    (pG1 pG2 : R) :
    (tick mo windX windZ pG1 time delta hov run cr px py pz rx ry rz).1
      = (tick mo windX windZ pG2 time delta hov run cr px py pz rx ry rz).1 := by
  cases cr with
  | true => rfl
  | false =>
    cases hov with
    | false => rfl
    | true =>
      cases run with
      | false => rfl
      | true => rfl

/-- C8: the per-frame flavoring writes only the lateral position
components and the tilt components of rotation: altitude, heading, armed,
crashed, throttle, the running flag, the mission and the log all pass
through unchanged, and the position is independent of the PID gain: the
wobble perturbs only visual rotation. -/
theorem c8_tick_cosmetic {R : Type} [LinearOrderedField R] (mo : MathOps R)
    (windX windZ pGain pGain2 time delta : R) (s : SimState R) :
    (tickSim mo windX windZ pGain time delta s).posY = s.posY ∧
    (tickSim mo windX windZ pGain time delta s).rotY = s.rotY ∧
    (tickSim mo windX windZ pGain time delta s).isHovering = s.isHovering ∧
    (tickSim mo windX windZ pGain time delta s).running = s.running ∧
    (tickSim mo windX windZ pGain time delta s).crashed = s.crashed ∧
    (tickSim mo windX windZ pGain time delta s).throttle = s.throttle ∧
    (tickSim mo windX windZ pGain time delta s).slept = s.slept ∧
    (tickSim mo windX windZ pGain time delta s).mission = s.mission ∧
    (tickSim mo windX windZ pGain time delta s).logs = s.logs ∧
    (tickSim mo windX windZ pGain time delta s).posX
        = (tickSim mo windX windZ pGain2 time delta s).posX ∧
    (tickSim mo windX windZ pGain time delta s).posZ
        = (tickSim mo windX windZ pGain2 time delta s).posZ := by
  have h := tick_pos_pGain mo windX windZ time delta s.isHovering
    (s.running || s.isHovering) s.crashed s.posX s.posY s.posZ s.rotX s.rotY s.rotZ
    pGain pGain2
  exact ⟨tick_posY mo windX windZ pGain time delta s.isHovering
      (s.running || s.isHovering) s.crashed s.posX s.posY s.posZ s.rotX s.rotY s.rotZ,
    tick_rotY mo windX windZ pGain time delta s.isHovering
      (s.running || s.isHovering) s.crashed s.posX s.posY s.posZ s.rotX s.rotY s.rotZ,
    rfl, rfl, rfl, rfl, rfl, rfl, rfl,
    congrArg Prod.fst h, congrArg (fun p => p.2.2) h⟩

/-! ## C9: the mission check of the hoop challenge -/

/-- A line starting with the takeoff prefix takes the takeoff branch. -/
lemma execLine_takeoff {R : Type} [LinearOrderedField R] (mo : MathOps R) (cap : Captured R)
    (l : String) (st : LoopState R) (hl : strStarts l "takeoff()" = true) :
    execLine mo cap l st =
      { store := missionCheck mo cap
          { st.store with
              logs := st.store.logs ++ ["Executing: " ++ l],
              isHovering := true, throttle := 0.3, posY := 2,
              slept := st.store.slept + 1500 },
        curX := st.curX, curY := st.curY, curZ := st.curZ } := by
  unfold execLine
  rw [hl]
  rfl

/-- A waypoint line whose arguments match the regex takes the matched
branch: absolute x and z from parseFloat of the captured groups. -/
lemma execLine_waypoint_some {R : Type} [LinearOrderedField R] (mo : MathOps R)
    (cap : Captured R) (l : String) (st : LoopState R) (g : List Char × List Char)
    (hl : strStarts l "waypoint(" = true) (hm : searchWaypoint l.toList = some g) :
    execLine mo cap l st =
      { store := missionCheck mo cap
          { st.store with
              logs := st.store.logs ++ ["Executing: " ++ l],
              throttle := 0.3,
              posX := (((jsParseFloat g.1).getD 0 : ℚ) : R),
              posZ := (((jsParseFloat g.2).getD 0 : ℚ) : R),
              slept := st.store.slept + 2000 },
        curX := st.curX, curY := st.curY, curZ := st.curZ } := by
  have h1 : strStarts l "takeoff()" = false := starts_false_of_head_ne hl rfl rfl (by decide)
  have h2 : strStarts l "land()" = false := starts_false_of_head_ne hl rfl rfl (by decide)
  have h3 : strStarts l "forward(" = false := starts_false_of_head_ne hl rfl rfl (by decide)
  have h4 : strStarts l "backward(" = false := starts_false_of_head_ne hl rfl rfl (by decide)
  have h5 : strStarts l "left(" = false := starts_false_of_head_ne hl rfl rfl (by decide)
  have h6 : strStarts l "right(" = false := starts_false_of_head_ne hl rfl rfl (by decide)
  have h7 : strStarts l "yaw(" = false := starts_false_of_head_ne hl rfl rfl (by decide)
  have h8 : strStarts l "hover(" = false := starts_false_of_head_ne hl rfl rfl (by decide)
  unfold execLine
  rw [h1, h2, h3, h4, h5, h6, h7, h8, hl, hm]
  rfl

set_option maxHeartbeats 1000000 in
/-- C9: with the hoop mission selected and the drone parked at the origin,
the script that climbs to altitude 2 and then flies to the point under
the hoop ends with the drone physically inside the capture radius of the
hoop at (0, 3, -5), squared distance 1 against radius 1.5; yet no mission
completion is logged and the mission stays hoop, because the check
computes the distance from the dronePos value captured when the run
started (the origin, at distance sqrt 34).  The loop guard flag is set to
true here, isolating the mission-check defect from the loop-guard defect
recorded for C1. -/
theorem c9_mission_check_stale :
    parseLines scriptHoop = ["takeoff()", "waypoint(0, -5)"] ∧
    (let mo : MathOps ℝ := ⟨Real.pi, Real.sin, Real.cos, Real.sqrt, fun _ => ""⟩
     let cap : Captured ℝ := ⟨true, 0, 0, 0, 0, Mission.hoop⟩
     let st0 : LoopState ℝ := ⟨{ (initState : SimState ℝ) with mission := Mission.hoop }, 0, 0, 0⟩
     let fin := runLoop mo cap (parseLines scriptHoop) st0
     fin.store.mission = Mission.hoop ∧
     (fin.store.logs.filter (fun x => containsStr x "MISSION COMPLETE")).length = 0 ∧
     fin.store.posX = 0 ∧ fin.store.posY = 2 ∧ fin.store.posZ = -5 ∧
     (fin.store.posX - 0) ^ 2 + (fin.store.posY - 3) ^ 2 + (fin.store.posZ - (-5)) ^ 2
        < 1.5 ^ 2) := by
  refine ⟨by decide, ?_⟩
  have hsq : ¬ ((⟨Real.pi, Real.sin, Real.cos, Real.sqrt, fun _ => ""⟩ : MathOps ℝ).sqrt
      ((⟨true, 0, 0, 0, 0, Mission.hoop⟩ : Captured ℝ).posX0 ^ 2 +
       ((⟨true, 0, 0, 0, 0, Mission.hoop⟩ : Captured ℝ).posY0 - 3) ^ 2 +
       ((⟨true, 0, 0, 0, 0, Mission.hoop⟩ : Captured ℝ).posZ0 - (-5)) ^ 2) < 1.5) := by
    show ¬ (Real.sqrt ((0 : ℝ) ^ 2 + ((0 : ℝ) - 3) ^ 2 + ((0 : ℝ) - (-5)) ^ 2) < 1.5)
    have h34 : (0 : ℝ) ^ 2 + ((0 : ℝ) - 3) ^ 2 + ((0 : ℝ) - (-5)) ^ 2 = 34 := by norm_num
    rw [h34]
    intro habs
    nlinarith [Real.sq_sqrt (show (0 : ℝ) ≤ 34 by norm_num), Real.sqrt_nonneg (34 : ℝ)]
  have hmc : ∀ s : SimState ℝ,
      missionCheck (⟨Real.pi, Real.sin, Real.cos, Real.sqrt, fun _ => ""⟩ : MathOps ℝ)
        (⟨true, 0, 0, 0, 0, Mission.hoop⟩ : Captured ℝ) s = s := by
    intro s
    unfold missionCheck
    rw [if_pos (show (⟨true, 0, 0, 0, 0, Mission.hoop⟩ : Captured ℝ).mission0 = Mission.hoop
          from rfl),
      if_neg hsq]
  have hd0 : digitsVal "0".toList = 0 := rfl
  have hdE : digitsVal ([] : List Char) = 0 := rfl
  have hd5 : digitsVal "5".toList = 5 := rfl
  have hj0 : ((jsParseFloat "0".toList).getD 0 : ℚ)
      = ((digitsVal "0".toList : ℕ) : ℚ) + ((digitsVal ([] : List Char) : ℕ) : ℚ)
          / (10 : ℚ) ^ (List.length ([] : List Char)) := rfl
  have hj0v : ((jsParseFloat "0".toList).getD 0 : ℚ) = 0 := by
    rw [hj0, hd0, hdE]
    norm_num
  have hj5 : ((jsParseFloat "-5".toList).getD 0 : ℚ)
      = -(((digitsVal "5".toList : ℕ) : ℚ) + ((digitsVal ([] : List Char) : ℕ) : ℚ)
          / (10 : ℚ) ^ (List.length ([] : List Char))) := rfl
  have hj5v : ((jsParseFloat "-5".toList).getD 0 : ℚ) = -5 := by
    rw [hj5, hd5, hdE]
    norm_num
  have hB : (execLine (⟨Real.pi, Real.sin, Real.cos, Real.sqrt, fun _ => ""⟩ : MathOps ℝ)
      (⟨true, 0, 0, 0, 0, Mission.hoop⟩ : Captured ℝ) "waypoint(0, -5)"
      (execLine (⟨Real.pi, Real.sin, Real.cos, Real.sqrt, fun _ => ""⟩ : MathOps ℝ)
        (⟨true, 0, 0, 0, 0, Mission.hoop⟩ : Captured ℝ) "takeoff()"
        (⟨{ (initState : SimState ℝ) with mission := Mission.hoop }, 0, 0, 0⟩
          : LoopState ℝ))).store.mission = Mission.hoop ∧
      ((execLine (⟨Real.pi, Real.sin, Real.cos, Real.sqrt, fun _ => ""⟩ : MathOps ℝ)
      (⟨true, 0, 0, 0, 0, Mission.hoop⟩ : Captured ℝ) "waypoint(0, -5)"
      (execLine (⟨Real.pi, Real.sin, Real.cos, Real.sqrt, fun _ => ""⟩ : MathOps ℝ)
        (⟨true, 0, 0, 0, 0, Mission.hoop⟩ : Captured ℝ) "takeoff()"
        (⟨{ (initState : SimState ℝ) with mission := Mission.hoop }, 0, 0, 0⟩
          : LoopState ℝ))).store.logs.filter
            (fun x => containsStr x "MISSION COMPLETE")).length = 0 ∧
      (execLine (⟨Real.pi, Real.sin, Real.cos, Real.sqrt, fun _ => ""⟩ : MathOps ℝ)
      (⟨true, 0, 0, 0, 0, Mission.hoop⟩ : Captured ℝ) "waypoint(0, -5)"
      (execLine (⟨Real.pi, Real.sin, Real.cos, Real.sqrt, fun _ => ""⟩ : MathOps ℝ)
        (⟨true, 0, 0, 0, 0, Mission.hoop⟩ : Captured ℝ) "takeoff()"
        (⟨{ (initState : SimState ℝ) with mission := Mission.hoop }, 0, 0, 0⟩
          : LoopState ℝ))).store.posX = 0 ∧
      (execLine (⟨Real.pi, Real.sin, Real.cos, Real.sqrt, fun _ => ""⟩ : MathOps ℝ)
      (⟨true, 0, 0, 0, 0, Mission.hoop⟩ : Captured ℝ) "waypoint(0, -5)"
      (execLine (⟨Real.pi, Real.sin, Real.cos, Real.sqrt, fun _ => ""⟩ : MathOps ℝ)
        (⟨true, 0, 0, 0, 0, Mission.hoop⟩ : Captured ℝ) "takeoff()"
        (⟨{ (initState : SimState ℝ) with mission := Mission.hoop }, 0, 0, 0⟩
          : LoopState ℝ))).store.posY = 2 ∧
      (execLine (⟨Real.pi, Real.sin, Real.cos, Real.sqrt, fun _ => ""⟩ : MathOps ℝ)
      (⟨true, 0, 0, 0, 0, Mission.hoop⟩ : Captured ℝ) "waypoint(0, -5)"
      (execLine (⟨Real.pi, Real.sin, Real.cos, Real.sqrt, fun _ => ""⟩ : MathOps ℝ)
        (⟨true, 0, 0, 0, 0, Mission.hoop⟩ : Captured ℝ) "takeoff()"
        (⟨{ (initState : SimState ℝ) with mission := Mission.hoop }, 0, 0, 0⟩
          : LoopState ℝ))).store.posZ = -5 ∧
      ((execLine (⟨Real.pi, Real.sin, Real.cos, Real.sqrt, fun _ => ""⟩ : MathOps ℝ)
      (⟨true, 0, 0, 0, 0, Mission.hoop⟩ : Captured ℝ) "waypoint(0, -5)"
      (execLine (⟨Real.pi, Real.sin, Real.cos, Real.sqrt, fun _ => ""⟩ : MathOps ℝ)
        (⟨true, 0, 0, 0, 0, Mission.hoop⟩ : Captured ℝ) "takeoff()"
        (⟨{ (initState : SimState ℝ) with mission := Mission.hoop }, 0, 0, 0⟩
          : LoopState ℝ))).store.posX - 0) ^ 2 +
        ((execLine (⟨Real.pi, Real.sin, Real.cos, Real.sqrt, fun _ => ""⟩ : MathOps ℝ)
      (⟨true, 0, 0, 0, 0, Mission.hoop⟩ : Captured ℝ) "waypoint(0, -5)"
      (execLine (⟨Real.pi, Real.sin, Real.cos, Real.sqrt, fun _ => ""⟩ : MathOps ℝ)
        (⟨true, 0, 0, 0, 0, Mission.hoop⟩ : Captured ℝ) "takeoff()"
        (⟨{ (initState : SimState ℝ) with mission := Mission.hoop }, 0, 0, 0⟩
          : LoopState ℝ))).store.posY - 3) ^ 2 +
        ((execLine (⟨Real.pi, Real.sin, Real.cos, Real.sqrt, fun _ => ""⟩ : MathOps ℝ)
      (⟨true, 0, 0, 0, 0, Mission.hoop⟩ : Captured ℝ) "waypoint(0, -5)"
      (execLine (⟨Real.pi, Real.sin, Real.cos, Real.sqrt, fun _ => ""⟩ : MathOps ℝ)
        (⟨true, 0, 0, 0, 0, Mission.hoop⟩ : Captured ℝ) "takeoff()"
        (⟨{ (initState : SimState ℝ) with mission := Mission.hoop }, 0, 0, 0⟩
          : LoopState ℝ))).store.posZ - (-5)) ^ 2 < 1.5 ^ 2 := by
    rw [execLine_takeoff (⟨Real.pi, Real.sin, Real.cos, Real.sqrt, fun _ => ""⟩ : MathOps ℝ)
        (⟨true, 0, 0, 0, 0, Mission.hoop⟩ : Captured ℝ) "takeoff()"
        (⟨{ (initState : SimState ℝ) with mission := Mission.hoop }, 0, 0, 0⟩ : LoopState ℝ)
        (by decide),
      hmc,
      execLine_waypoint_some (⟨Real.pi, Real.sin, Real.cos, Real.sqrt, fun _ => ""⟩ : MathOps ℝ)
        (⟨true, 0, 0, 0, 0, Mission.hoop⟩ : Captured ℝ) "waypoint(0, -5)" _
        ("0".toList, "-5".toList) (by decide) (by decide),
      hmc]
    refine ⟨rfl, by decide, ?_, rfl, ?_, ?_⟩
    · show (((jsParseFloat "0".toList).getD 0 : ℚ) : ℝ) = 0
      rw [hj0v]
      norm_num
    · show (((jsParseFloat "-5".toList).getD 0 : ℚ) : ℝ) = -5
      rw [hj5v]
      push_cast
      norm_num
    · show ((((jsParseFloat "0".toList).getD 0 : ℚ) : ℝ) - 0) ^ 2 + ((2 : ℝ) - 3) ^ 2 +
          ((((jsParseFloat "-5".toList).getD 0 : ℚ) : ℝ) - (-5)) ^ 2 < 1.5 ^ 2
      rw [hj0v, hj5v]
      push_cast
      norm_num
  rw [show parseLines scriptHoop = ["takeoff()", "waypoint(0, -5)"] from by decide]
  exact hB

end DroneSim
